import Mathlib

/-!
Verification of the pNodes stats bot (`src/index.js`).

The program queries a JSON-RPC endpoint for a list of "pods" (network
nodes), counts them by version-string fragment, and renders a fixed-format
report.  We embed the JavaScript values and the relevant functions
(`rpcCall`, `extractPods`, `getPodsByVersion`'s counting step,
`getTotalPods`, `getPNodesInfo`) shallowly and prove the specified
properties about them.
-/

namespace PNodes

/-- JavaScript values, as far as this program inspects them: `undefined`,
`null`, booleans, numbers (modelled as integers), strings, arrays and
plain objects (association lists of fields). -/
inductive JSVal where
  | undefined : JSVal
  | null : JSVal
  | bool : Bool → JSVal
  | num : Int → JSVal
  | str : String → JSVal
  | list : List JSVal → JSVal
  | obj : List (String × JSVal) → JSVal

namespace JSVal

/-- JavaScript truthiness: `undefined`, `null`, `false`, `0` and `""` are
falsy; every other value (in our model) is truthy. -/
def truthy : JSVal → Bool
  | .undefined => false
  | .null => false
  | .bool b => b
  | .num n => n != 0
  | .str s => s != ""
  | .list _ => true
  | .obj _ => true

/-- `true` for `null` and `undefined`: the two values on which JavaScript
member access throws a `TypeError`. -/
def isNullish : JSVal → Bool
  | .undefined => true
  | .null => true
  | _ => false

/-- Member access `v.f` on a non-nullish value: field lookup on objects
(first binding wins), `undefined` for a missing field and for every
primitive or array (none of the fields this program reads exists on
those). -/
def getField (v : JSVal) (f : String) : JSVal :=
  match v with
  | .obj fields => (fields.lookup f).getD .undefined
  | _ => .undefined

mutual

/-- JavaScript `String(v)` conversion, for the values of our model:
`"undefined"`, `"null"`, `"true"`/`"false"`, decimal numerals, the string
itself, arrays joined by commas (with nullish elements rendered empty, as
`Array.prototype.join` does), and `"[object Object]"` for objects. -/
def jsToString : JSVal → String
  | .undefined => "undefined"
  | .null => "null"
  | .bool true => "true"
  | .bool false => "false"
  | .num n => toString n
  | .str s => s
  | .list xs => String.intercalate "," (jsJoinParts xs)
  | .obj _ => "[object Object]"

/-- The per-element strings used by `Array.prototype.join`. -/
def jsJoinParts : List JSVal → List String
  | [] => []
  | x :: xs => (if x.isNullish then "" else jsToString x) :: jsJoinParts xs

end

end JSVal

/-- JavaScript `s.includes(f)`: case-sensitive substring containment. -/
def strContains (s f : String) : Bool :=
  decide (f.toList <:+: s.toList)

/-- The message V8 produces when a field is read off a nullish value. -/
def typeErrorMsg (v : JSVal) (f : String) : String :=
  "Cannot read properties of " ++ v.jsToString ++ " (reading " ++ f ++ ")"

/-- Member access `v.f` as fallible JavaScript evaluation: a `TypeError`
on `null`/`undefined`, otherwise the field value. -/
def getFieldE (v : JSVal) (f : String) : Except String JSVal :=
  if v.isNullish then .error (typeErrorMsg v f) else .ok (v.getField f)

/-- The HTTP layer's answer to one POST, as `rpcCall` observes it through
`node-fetch`: the success flag with status code and reason phrase, and the
JSON-parsed body. -/
structure HttpResponse where
  ok : Bool
  status : Nat
  statusText : String
  body : JSVal

/-- The JSON-RPC request envelope `rpcCall` builds:
`{jsonrpc: "2.0", id, method, params}`.  The `id` parameter stands for
the `Date.now()` call. -/
def mkPayload (id : Nat) (method : String) (params : List JSVal) : JSVal :=
  .obj [("jsonrpc", .str "2.0"), ("id", .num id),
        ("method", .str method), ("params", .list params)]

/-- `rpcCall` from `src/index.js`, with the transport abstracted as a
function from the posted body to the HTTP response.  Throws (as
`Except.error` carrying the `Error` message) on a non-ok HTTP status or a
truthy `error` field in the parsed body; otherwise returns `data.result`.
Reading `data.error` off a nullish body throws a `TypeError`. -/
def rpcCall (method : String) (params : List JSVal) (id : Nat)
    (transport : JSVal → HttpResponse) : Except String JSVal :=
  let payload := mkPayload id method params
  let res := transport payload
  if !res.ok then
    .error ("RPC request failed: " ++ toString res.status ++ " " ++ res.statusText)
  else do
    let data := res.body
    let errField ← getFieldE data "error"
    if errField.truthy then
      .error ("RPC error (" ++ (errField.getField "code").jsToString ++ "): "
        ++ (errField.getField "message").jsToString)
    else
      getFieldE data "result"

/-- `extractPods` together with its diagnostic: the pod array when the
result is truthy and its `pods` field is an array, otherwise the empty
array, the Boolean recording whether the `console.warn` diagnostic was
emitted. -/
def extractPodsD (rpcResult : JSVal) : List JSVal × Bool :=
  if rpcResult.truthy then
    match rpcResult.getField "pods" with
    | .list pods => (pods, false)
    | _ => ([], true)
  else ([], true)

/-- `extractPods` from `src/index.js`: the array it returns. -/
def extractPods (rpcResult : JSVal) : List JSVal :=
  (extractPodsD rpcResult).1

/-- The counting step of `getPodsByVersion`:
`podsArray.filter(pod => String(pod.version).includes(versionFragment)).length`
as fallible evaluation — reading `.version` off a nullish entry throws. -/
def countByFragment : List JSVal → String → Except String Nat
  | [], _ => .ok 0
  | pod :: pods, versionFragment => do
    let v ← getFieldE pod "version"
    let rest ← countByFragment pods versionFragment
    pure ((if strContains v.jsToString versionFragment then 1 else 0) + rest)

/-- `getPodsByVersion` applied to an already-settled RPC outcome. -/
def getPodsByVersionE (r : Except String JSVal) (versionFragment : String) :
    Except String Nat :=
  r.bind fun rpcResult => countByFragment (extractPods rpcResult) versionFragment

/-- `getPodsByVersion` from `src/index.js`. -/
def getPodsByVersion (versionFragment : String) (id : Nat)
    (transport : JSVal → HttpResponse) : Except String Nat :=
  getPodsByVersionE (rpcCall "get-pods" [] id transport) versionFragment

/-- The computation `getTotalPods` performs on the RPC result: the numeric
`total_count` field when present, otherwise the length of the extracted
pod array. -/
def totalCount (rpcResult : JSVal) : Int :=
  if rpcResult.truthy then
    match rpcResult.getField "total_count" with
    | .num n => n
    | _ => ((extractPods rpcResult).length : Int)
  else ((extractPods rpcResult).length : Int)

/-- `getTotalPods` applied to an already-settled RPC outcome. -/
def getTotalPodsE (r : Except String JSVal) : Except String Int :=
  r.map totalCount

/-- `getTotalPods` from `src/index.js`. -/
def getTotalPods (id : Nat) (transport : JSVal → HttpResponse) :
    Except String Int :=
  getTotalPodsE (rpcCall "get-pods" [] id transport)

/-- The success-path report block of `getPNodesInfo`, exactly as the
template concatenates it. -/
def reportBlock (count040 count041 count042 : Nat) (total : Int) : String :=
  "```ml\n" ++
  "pNodes Version: Counts\n" ++
  "       `0.4.0`:      " ++ toString count040 ++ "\n" ++
  "       `0.4.1`:      " ++ toString count041 ++ "\n" ++
  "       `0.4.2`:    " ++ toString count042 ++ "\n" ++
  "         Total:    " ++ toString total ++ "\n" ++
  "```"

/-- `getPNodesInfo`'s aggregation over the four settled call outcomes:
all four succeed and the report block is assembled, or the first failure
is caught and rendered as the single error line. -/
def getPNodesInfoR (r040 r041 r042 rt : Except String JSVal) : String :=
  match (do
      let count040 ← getPodsByVersionE r040 "0.4.0"
      let count041 ← getPodsByVersionE r041 "0.4.1"
      let count042 ← getPodsByVersionE r042 "0.4.2"
      let total ← getTotalPodsE rt
      pure (count040, count041, count042, total) :
        Except String (Nat × Nat × Nat × Int)) with
  | .ok (count040, count041, count042, total) =>
      reportBlock count040 count041 count042 total
  | .error err => "Error retrieving data: " ++ err

/-- `getPNodesInfo` from `src/index.js`: four concurrent `rpcCall`s (each
with its own `Date.now()` id) against the same transport, then the
aggregation above. -/
def getPNodesInfo (id0 id1 id2 id3 : Nat) (transport : JSVal → HttpResponse) :
    String :=
  getPNodesInfoR (rpcCall "get-pods" [] id0 transport)
    (rpcCall "get-pods" [] id1 transport)
    (rpcCall "get-pods" [] id2 transport)
    (rpcCall "get-pods" [] id3 transport)

/-- Spec-side counting, following §8 of the spec verbatim: "the count of
entries whose version text contains `f` as substring". -/
def specCountByFragment (pods : List JSVal) (f : String) : Nat :=
  (pods.filter fun pod => strContains (pod.getField "version").jsToString f).length

/-! ### Helper lemmas -/

theorem strContains_iff {s f : String} :
    strContains s f = true ↔ f.toList <:+: s.toList := by
  simp [strContains]

theorem strContains_empty (s : String) : strContains s "" = true :=
  strContains_iff.mpr List.nil_infix

/-- On a list of non-nullish pods the counting step succeeds and computes
exactly the spec-side filter count. -/
theorem countByFragment_eq_ok (pods : List JSVal) (f : String)
    (h : ∀ p ∈ pods, p.isNullish = false) :
    countByFragment pods f = .ok (specCountByFragment pods f) := by
  induction pods with
  | nil => rfl
  | cons p ps ih =>
    have hp : p.isNullish = false := h p (by simp)
    have ih' := ih fun q hq => h q (by simp [hq])
    simp only [countByFragment, getFieldE, hp, Bool.false_eq_true, if_false, ih',
      specCountByFragment, List.filter_cons, bind, Except.bind, pure, Except.pure]
    cases hc : strContains (p.getField "version").jsToString f <;>
      simp [hc, specCountByFragment, Nat.add_comm]

/-- If the counting step succeeded then every entry was non-nullish (a
nullish entry makes the member access throw). -/
theorem countByFragment_ok_accessible {pods : List JSVal} {f : String} {c : Nat}
    (h : countByFragment pods f = .ok c) : ∀ p ∈ pods, p.isNullish = false := by
  induction pods generalizing c with
  | nil => simp
  | cons p ps ih =>
    by_cases hp : p.isNullish = true
    · exfalso
      simp [countByFragment, getFieldE, hp, bind, Except.bind] at h
    · cases hrest : countByFragment ps f with
      | error e =>
        exfalso
        simp [countByFragment, getFieldE, hp, hrest, bind, Except.bind] at h
      | ok c' =>
        intro q hq
        rcases List.mem_cons.mp hq with rfl | hmem
        · simpa using hp
        · exact ih hrest q hmem

theorem specCountByFragment_mono (pods : List JSVal) {f g : String}
    (hfg : strContains g f = true) :
    specCountByFragment pods g ≤ specCountByFragment pods f := by
  refine (List.monotone_filter_right pods ?_).length_le
  intro p hp
  exact strContains_iff.mpr ((strContains_iff.mp hfg).trans (strContains_iff.mp hp))

/-! ### Claims -/

/-- **C1.** For every RPC result containing a `pods` list (of well-formed,
non-nullish entries) and every fragment `f`, the counting step of
`getPodsByVersion` returns exactly the number of entries whose `version`
field, converted to text, contains `f` as a case-sensitive substring; for
`f = ""` it returns the length of the pods list, and when `f` occurs in no
entry's version text it returns `0`. -/
theorem countByFragment_spec (r : JSVal) (pods : List JSVal) (f : String)
    (hp : r.getField "pods" = .list pods)
    (hnn : ∀ p ∈ pods, p.isNullish = false) :
    getPodsByVersionE (.ok r) f = .ok (specCountByFragment pods f)
    ∧ getPodsByVersionE (.ok r) "" = .ok pods.length
    ∧ ((∀ p ∈ pods, strContains (p.getField "version").jsToString f = false) →
        getPodsByVersionE (.ok r) f = .ok 0) := by
  have hextract : extractPods r = pods := by
    cases r <;> simp_all [JSVal.getField, extractPods, extractPodsD, JSVal.truthy, hp]
  have hbase : ∀ g : String, getPodsByVersionE (.ok r) g =
      countByFragment pods g := by
    intro g
    simp [getPodsByVersionE, hextract, bind, Except.bind]
  refine ⟨?_, ?_, ?_⟩
  · rw [hbase]
    exact countByFragment_eq_ok pods f hnn
  · rw [hbase, countByFragment_eq_ok pods "" hnn]
    have : specCountByFragment pods "" = pods.length := by
      unfold specCountByFragment
      rw [List.filter_eq_self.mpr fun p _ => strContains_empty _]
    rw [this]
  · intro hnone
    rw [hbase, countByFragment_eq_ok pods f hnn]
    have : specCountByFragment pods f = 0 := by
      unfold specCountByFragment
      rw [List.filter_eq_nil_iff.mpr fun p hq => by simp [hnone p hq]]
      rfl
    rw [this]

/-- Witness for C1 on a concrete response. -/
theorem countByFragment_spec_witness :
    getPodsByVersionE (.ok (.obj [("pods", .list
        [.obj [("version", .str "0.4.1")], .obj [("version", .str "0.5.0")]])]))
      "0.4" = .ok (specCountByFragment
        [.obj [("version", .str "0.4.1")], .obj [("version", .str "0.5.0")]] "0.4") :=
  (countByFragment_spec
    (.obj [("pods", .list
      [.obj [("version", .str "0.4.1")], .obj [("version", .str "0.5.0")]])])
    [.obj [("version", .str "0.4.1")], .obj [("version", .str "0.5.0")]]
    "0.4" rfl (by decide)).1

/-- **C2.** `getTotalPods`'s computation returns the result's
`total_count` field whenever that field is a number, regardless of the pod
list's length (concrete divergence preserved in the last conjunct); when
`total_count` is absent or non-numeric it returns the length of the pod
list extracted by `extractPods`'s rule. -/
theorem getTotalPods_spec :
    (∀ (r : JSVal) (n : Int), r.getField "total_count" = .num n → totalCount r = n)
    ∧ (∀ r : JSVal, (∀ n : Int, r.getField "total_count" ≠ .num n) →
        totalCount r = ((extractPods r).length : Int))
    ∧ totalCount (.obj [("pods", .list [.obj [("version", .str "0.4.1")]]),
        ("total_count", .num 10)]) = 10 := by
  refine ⟨?_, ?_, rfl⟩
  · intro r n h
    cases r <;> simp_all [JSVal.getField, totalCount, JSVal.truthy]
  · intro r h
    cases hg : r.getField "total_count" <;> simp [totalCount, hg]
    exact absurd hg (h _)

/-- Witness for C2: a numeric `total_count` is returned as-is, and the
fallback counts the extracted list. -/
theorem getTotalPods_spec_witness :
    totalCount (.obj [("total_count", .num 7)]) = 7
    ∧ totalCount .undefined = ((extractPods .undefined).length : Int) :=
  ⟨getTotalPods_spec.1 (.obj [("total_count", .num 7)]) 7 rfl,
   getTotalPods_spec.2.1 .undefined fun n h => by simp [JSVal.getField] at h⟩

/-- **C6.** `extractPods` is total: it returns the input's `pods` field
exactly when the input is non-nullish and that field is an array, and
otherwise — including on `undefined` and on `{}` — returns the empty list
with the diagnostic flag set instead of raising. -/
theorem extractPods_total :
    (∀ (r : JSVal) (pods : List JSVal), r.isNullish = false →
        r.getField "pods" = .list pods → extractPods r = pods)
    ∧ (∀ r : JSVal, (∀ pods : List JSVal, r.getField "pods" ≠ .list pods) →
        extractPods r = [] ∧ (extractPodsD r).2 = true)
    ∧ extractPods .undefined = [] ∧ extractPods (.obj []) = [] := by
  refine ⟨?_, ?_, rfl, rfl⟩
  · intro r pods hnn hp
    cases r <;> simp_all [JSVal.getField, extractPods, extractPodsD, JSVal.truthy]
  · intro r h
    by_cases ht : r.truthy = true
    · cases hg : r.getField "pods" <;>
        simp [extractPods, extractPodsD, ht, hg]
      exact absurd hg (h _)
    · simp [extractPods, extractPodsD, ht]

/-- Witness for C6 on concrete shapes. -/
theorem extractPods_total_witness :
    extractPods (.obj [("pods", .list [.num 1])]) = [.num 1]
    ∧ (extractPods (.obj [("foo", .num 2)]) = []
        ∧ (extractPodsD (.obj [("foo", .num 2)])).2 = true) :=
  ⟨extractPods_total.1 (.obj [("pods", .list [.num 1])]) [.num 1] rfl rfl,
   extractPods_total.2.1 (.obj [("foo", .num 2)])
     fun pods h => by simp [JSVal.getField, List.lookup] at h⟩

/-- An error line of `getPNodesInfo` starts with the fixed prefix and is
single-line whenever the caught message is. -/
theorem errLine_props (out e : String)
    (hout : out = "Error retrieving data: " ++ e) :
    (∃ rest, out = "Error retrieving data:" ++ rest)
    ∧ ('\n' ∉ e.toList → '\n' ∉ out.toList) := by
  constructor
  · refine ⟨" " ++ e, ?_⟩
    rw [hout, show ("Error retrieving data: " : String) = "Error retrieving data:" ++ " "
      from rfl, String.append_assoc]
  · intro hne
    rw [hout]
    simp only [String.toList, String.data_append, List.mem_append]
    rintro (hfix | hmsg)
    · exact absurd hfix (by decide)
    · exact hne hmsg

/-- **C3.** `getPNodesInfo` never raises: whatever the four RPC calls
return, if any of them fails then aggregation is aborted and the output is
the single error line `"Error retrieving data: "` followed by the message
of the (first) failed stage — it starts with the fixed prefix, contains no
partial results, and stays single-line whenever the message is. -/
theorem getPNodesInfo_error_path (r040 r041 r042 rt : Except String JSVal)
    (h : (∃ e, r040 = .error e) ∨ (∃ e, r041 = .error e) ∨
         (∃ e, r042 = .error e) ∨ (∃ e, rt = .error e)) :
    ∃ e, (getPodsByVersionE r040 "0.4.0" = .error e
        ∨ getPodsByVersionE r041 "0.4.1" = .error e
        ∨ getPodsByVersionE r042 "0.4.2" = .error e
        ∨ getTotalPodsE rt = .error e)
      ∧ getPNodesInfoR r040 r041 r042 rt = "Error retrieving data: " ++ e
      ∧ (∃ rest, getPNodesInfoR r040 r041 r042 rt = "Error retrieving data:" ++ rest)
      ∧ ('\n' ∉ e.toList → '\n' ∉ (getPNodesInfoR r040 r041 r042 rt).toList) := by
  cases h0 : getPodsByVersionE r040 "0.4.0" with
  | error e =>
    have hout : getPNodesInfoR r040 r041 r042 rt = "Error retrieving data: " ++ e := by
      simp only [getPNodesInfoR, h0, bind, Except.bind]
    exact ⟨e, Or.inl rfl, hout, (errLine_props _ e hout).1, (errLine_props _ e hout).2⟩
  | ok c0 =>
    cases h1 : getPodsByVersionE r041 "0.4.1" with
    | error e =>
      have hout : getPNodesInfoR r040 r041 r042 rt = "Error retrieving data: " ++ e := by
        simp only [getPNodesInfoR, h0, h1, bind, Except.bind]
      exact ⟨e, Or.inr (Or.inl rfl), hout,
        (errLine_props _ e hout).1, (errLine_props _ e hout).2⟩
    | ok c1 =>
      cases h2 : getPodsByVersionE r042 "0.4.2" with
      | error e =>
        have hout : getPNodesInfoR r040 r041 r042 rt =
            "Error retrieving data: " ++ e := by
          simp only [getPNodesInfoR, h0, h1, h2, bind, Except.bind]
        exact ⟨e, Or.inr (Or.inr (Or.inl rfl)), hout,
          (errLine_props _ e hout).1, (errLine_props _ e hout).2⟩
      | ok c2 =>
        cases h3 : getTotalPodsE rt with
        | error e =>
          have hout : getPNodesInfoR r040 r041 r042 rt =
              "Error retrieving data: " ++ e := by
            simp only [getPNodesInfoR, h0, h1, h2, h3, bind, Except.bind]
          exact ⟨e, Or.inr (Or.inr (Or.inr rfl)), hout,
            (errLine_props _ e hout).1, (errLine_props _ e hout).2⟩
        | ok t =>
          exfalso
          rcases h with ⟨e, rfl⟩ | ⟨e, rfl⟩ | ⟨e, rfl⟩ | ⟨e, rfl⟩
          · simp [getPodsByVersionE, bind, Except.bind] at h0
          · simp [getPodsByVersionE, bind, Except.bind] at h1
          · simp [getPodsByVersionE, bind, Except.bind] at h2
          · simp [getTotalPodsE, Except.map] at h3

/-- Witness for C3: a failing first call yields the prefixed error line. -/
theorem getPNodesInfo_error_path_witness :
    getPNodesInfoR (.error "connect ECONNREFUSED 127.0.0.1:6000")
      (.ok (.obj [])) (.ok (.obj [])) (.ok (.obj []))
      = "Error retrieving data: connect ECONNREFUSED 127.0.0.1:6000" := by
  obtain ⟨e, hcase, hout, hpre, hline⟩ :=
    getPNodesInfo_error_path (.error "connect ECONNREFUSED 127.0.0.1:6000")
      (.ok (.obj [])) (.ok (.obj [])) (.ok (.obj []))
      (Or.inl ⟨"connect ECONNREFUSED 127.0.0.1:6000", rfl⟩)
  rcases hcase with hc | hc | hc | hc
  · rw [show getPodsByVersionE (.error "connect ECONNREFUSED 127.0.0.1:6000") "0.4.0"
        = Except.error "connect ECONNREFUSED 127.0.0.1:6000" from rfl] at hc
    injection hc with he
    subst he
    rw [hout]
    rfl
  · exact Except.noConfusion ((show getPodsByVersionE (.ok (.obj [])) "0.4.1"
      = Except.ok 0 from rfl).symm.trans hc)
  · exact Except.noConfusion ((show getPodsByVersionE (.ok (.obj [])) "0.4.2"
      = Except.ok 0 from rfl).symm.trans hc)
  · exact Except.noConfusion ((show getTotalPodsE (.ok (.obj []))
      = Except.ok 0 from rfl).symm.trans hc)

/-- **C4 counterexample.** The claim says `rpcCall` fails whenever the
parsed body *contains* an `error` field and otherwise (beyond a transport
failure) succeeds.  In fact the code only tests the field's truthiness: a
body `{error: null, result: 7}` contains an `error` field yet the call
succeeds with `7`; and a body that parses to JSON `null` makes the call
throw a `TypeError` — a raise outside the two advertised cases. -/
theorem rpcCall_error_field_counterexample :
    rpcCall "get-pods" [] 1
      (fun _ => ⟨true, 200, "OK", .obj [("error", .null), ("result", .num 7)]⟩)
      = .ok (.num 7)
    ∧ rpcCall "get-pods" [] 1 (fun _ => ⟨true, 200, "OK", .null⟩)
      = .error (typeErrorMsg .null "error") :=
  ⟨rfl, rfl⟩

/-- **C4 (amended).** `rpcCall` raises exactly in these cases: on a
non-success HTTP status it fails with the transport message (status code
and reason phrase); on an HTTP-ok response whose body parses to
`null`/`undefined` it throws a `TypeError`; on a body whose `error` field
is truthy it fails with the RPC message (remote code and message);
otherwise it succeeds and returns exactly the body's `result` field, with
no validation of that value's shape. -/
theorem rpcCall_cases (method : String) (params : List JSVal) (id : Nat)
    (transport : JSVal → HttpResponse) (res : HttpResponse)
    (hres : transport (mkPayload id method params) = res) :
    (res.ok = false →
      rpcCall method params id transport
        = .error ("RPC request failed: " ++ toString res.status ++ " "
            ++ res.statusText))
    ∧ (res.ok = true → res.body.isNullish = true →
      rpcCall method params id transport = .error (typeErrorMsg res.body "error"))
    ∧ (res.ok = true → res.body.isNullish = false →
        (res.body.getField "error").truthy = true →
      rpcCall method params id transport
        = .error ("RPC error ("
            ++ ((res.body.getField "error").getField "code").jsToString
            ++ "): "
            ++ ((res.body.getField "error").getField "message").jsToString))
    ∧ (res.ok = true → res.body.isNullish = false →
        (res.body.getField "error").truthy = false →
      rpcCall method params id transport = .ok (res.body.getField "result")) := by
  subst hres
  refine ⟨?_, ?_, ?_, ?_⟩
  · intro hok
    simp [rpcCall, hok]
  · intro hok hnull
    simp [rpcCall, hok, getFieldE, hnull, bind, Except.bind]
  · intro hok hnull htr
    simp [rpcCall, hok, getFieldE, hnull, htr, bind, Except.bind]
  · intro hok hnull htr
    simp [rpcCall, hok, getFieldE, hnull, htr, bind, Except.bind]

/-- Witness for the amended C4: a 500 response produces the transport
error message. -/
theorem rpcCall_cases_witness :
    rpcCall "get-pods" [] 1
      (fun _ => ⟨false, 500, "Internal Server Error", .null⟩)
      = .error "RPC request failed: 500 Internal Server Error" :=
  (rpcCall_cases "get-pods" [] 1
    (fun _ => ⟨false, 500, "Internal Server Error", .null⟩)
    ⟨false, 500, "Internal Server Error", .null⟩ rfl).1 rfl

/-- **C5.** On the spec's sample data — four pods with versions `0.4.0`,
`0.4.1`, `0.4.1`, `0.4.2` and `total_count = 4` returned by every call —
`getPNodesInfo` reports counts 1, 2, 1 and Total 4. -/
theorem getPNodesInfo_sample :
    getPNodesInfo 1 2 3 4 (fun _ => ⟨true, 200, "OK",
      .obj [("result", .obj [("pods", .list
        [.obj [("version", .str "0.4.0")], .obj [("version", .str "0.4.1")],
         .obj [("version", .str "0.4.1")], .obj [("version", .str "0.4.2")]]),
        ("total_count", .num 4)])]⟩)
    = "```ml\npNodes Version: Counts\n       `0.4.0`:      1\n       `0.4.1`:      2\n       `0.4.2`:    1\n         Total:    4\n```" :=
  rfl

/-- **C7.** On the success path the report is the fixed-format fenced
block containing the three version counts for `0.4.0`, `0.4.1`, `0.4.2`
in that order, followed by the total. -/
theorem getPNodesInfo_success (r040 r041 r042 rt : Except String JSVal)
    (c040 c041 c042 : Nat) (total : Int)
    (h0 : getPodsByVersionE r040 "0.4.0" = .ok c040)
    (h1 : getPodsByVersionE r041 "0.4.1" = .ok c041)
    (h2 : getPodsByVersionE r042 "0.4.2" = .ok c042)
    (h3 : getTotalPodsE rt = .ok total) :
    getPNodesInfoR r040 r041 r042 rt
      = "```ml\n" ++ "pNodes Version: Counts\n"
        ++ "       `0.4.0`:      " ++ toString c040 ++ "\n"
        ++ "       `0.4.1`:      " ++ toString c041 ++ "\n"
        ++ "       `0.4.2`:    " ++ toString c042 ++ "\n"
        ++ "         Total:    " ++ toString total ++ "\n" ++ "```" := by
  simp [getPNodesInfoR, h0, h1, h2, h3, bind, Except.bind, pure, Except.pure,
    reportBlock]

/-- Witness for C7 on concrete all-ok outcomes. -/
theorem getPNodesInfo_success_witness :
    getPNodesInfoR (.ok (.obj [])) (.ok (.obj [])) (.ok (.obj [])) (.ok (.obj []))
      = "```ml\npNodes Version: Counts\n       `0.4.0`:      0\n       `0.4.1`:      0\n       `0.4.2`:    0\n         Total:    0\n```" :=
  (getPNodesInfo_success (.ok (.obj [])) (.ok (.obj [])) (.ok (.obj []))
    (.ok (.obj [])) 0 0 0 0 rfl rfl rfl rfl).trans rfl

/-- **C8.** Fragment counting is monotone in the substring order: when `f`
occurs in `g`, the count for `f` dominates the count for `g`.  The
buckets therefore overlap — a pod at version `0.4.10` is counted under
fragment `0.4.1` — and they need not partition the list: a single pod at
version `0.4.3` is counted by none of the three reported fragments while
the total is 1. -/
theorem countByFragment_monotone :
    (∀ (pods : List JSVal) (f g : String) (cf cg : Nat),
        strContains g f = true →
        countByFragment pods f = .ok cf →
        countByFragment pods g = .ok cg → cg ≤ cf)
    ∧ countByFragment [.obj [("version", .str "0.4.10")]] "0.4.1" = .ok 1
    ∧ countByFragment [.obj [("version", .str "0.4.3")]] "0.4.0" = .ok 0
    ∧ countByFragment [.obj [("version", .str "0.4.3")]] "0.4.1" = .ok 0
    ∧ countByFragment [.obj [("version", .str "0.4.3")]] "0.4.2" = .ok 0
    ∧ totalCount (.obj [("pods", .list [.obj [("version", .str "0.4.3")]]),
        ("total_count", .num 1)]) = 1 := by
  refine ⟨?_, rfl, rfl, rfl, rfl, rfl⟩
  intro pods f g cf cg hfg hcf hcg
  have hacc := countByFragment_ok_accessible hcf
  have h1 : (Except.ok cf : Except String Nat)
      = .ok (specCountByFragment pods f) :=
    hcf.symm.trans (countByFragment_eq_ok pods f hacc)
  have h2 : (Except.ok cg : Except String Nat)
      = .ok (specCountByFragment pods g) :=
    hcg.symm.trans (countByFragment_eq_ok pods g hacc)
  injection h1 with e1
  injection h2 with e2
  rw [e1, e2]
  exact specCountByFragment_mono pods hfg

/-- Witness for C8 on the sample pod list, with `f = "0.4"` inside
`g = "0.4.1"`. -/
theorem countByFragment_monotone_witness :
    countByFragment
      [.obj [("version", .str "0.4.0")], .obj [("version", .str "0.4.1")],
       .obj [("version", .str "0.4.1")], .obj [("version", .str "0.4.2")]]
      "0.4" = .ok 4
    ∧ countByFragment
      [.obj [("version", .str "0.4.0")], .obj [("version", .str "0.4.1")],
       .obj [("version", .str "0.4.1")], .obj [("version", .str "0.4.2")]]
      "0.4.1" = .ok 2
    ∧ (2 : Nat) ≤ 4 :=
  ⟨rfl, rfl,
   countByFragment_monotone.1
     [.obj [("version", .str "0.4.0")], .obj [("version", .str "0.4.1")],
      .obj [("version", .str "0.4.1")], .obj [("version", .str "0.4.2")]]
     "0.4" "0.4.1" 4 2 (by decide) rfl rfl⟩

/-- **C9 counterexample.** The claim says counting never raises for pods
of any shape; but a `null` entry makes `String(pod.version)` throw a
`TypeError`, so counting fails on `[null]`. -/
theorem countByFragment_null_entry_raises :
    countByFragment [JSVal.null] "0.4.0"
      = .error (typeErrorMsg .null "version") :=
  rfl

/-- **C9 (amended).** Fragment counting is total over pods of any
non-nullish shape: for every entry that is not `null`/`undefined` —
including objects with no `version` field or a non-string version — it
does not raise; a missing version is coerced to the text `"undefined"`,
so such an entry is counted by the empty fragment but by none of
`0.4.0`, `0.4.1`, `0.4.2` (likewise a numeric version). -/
theorem countByFragment_total_amended (pods : List JSVal) (f : String)
    (h : ∀ p ∈ pods, p.isNullish = false) :
    (∃ c, countByFragment pods f = .ok c)
    ∧ ((JSVal.obj [("other", .num 1)]).getField "version").jsToString
        = "undefined"
    ∧ countByFragment [.obj [("other", .num 1)]] "" = .ok 1
    ∧ countByFragment [.obj [("other", .num 1)]] "0.4.0" = .ok 0
    ∧ countByFragment [.obj [("other", .num 1)]] "0.4.1" = .ok 0
    ∧ countByFragment [.obj [("other", .num 1)]] "0.4.2" = .ok 0
    ∧ countByFragment [.obj [("version", .num 41)]] "0.4.1" = .ok 0 :=
  ⟨⟨_, countByFragment_eq_ok pods f h⟩, rfl, rfl, rfl, rfl, rfl, rfl⟩

/-- Witness for the amended C9. -/
theorem countByFragment_total_amended_witness :
    ((JSVal.obj [("other", .num 1)]).getField "version").jsToString
      = "undefined" :=
  (countByFragment_total_amended [JSVal.obj []] "x" (by decide)).2.1

/-- **C10.** The report text is a deterministic function of the four RPC
outcomes alone: two runs whose calls settle identically produce identical
strings, while the time-based id does appear in the request envelope
(second conjunct) — it influences the envelope only, never the report. -/
theorem getPNodesInfo_deterministic :
    (∀ (id0 id1 id2 id3 id0' id1' id2' id3' : Nat)
        (t t' : JSVal → HttpResponse),
        rpcCall "get-pods" [] id0 t = rpcCall "get-pods" [] id0' t' →
        rpcCall "get-pods" [] id1 t = rpcCall "get-pods" [] id1' t' →
        rpcCall "get-pods" [] id2 t = rpcCall "get-pods" [] id2' t' →
        rpcCall "get-pods" [] id3 t = rpcCall "get-pods" [] id3' t' →
        getPNodesInfo id0 id1 id2 id3 t = getPNodesInfo id0' id1' id2' id3' t')
    ∧ (∀ (id : Nat) (method : String) (params : List JSVal),
        (mkPayload id method params).getField "id" = .num id) := by
  constructor
  · intro id0 id1 id2 id3 id0' id1' id2' id3' t t' h0 h1 h2 h3
    unfold getPNodesInfo
    rw [h0, h1, h2, h3]
  · intro id method params
    rfl

/-- Witness for C10: different ids against the same transport produce the
same report. -/
theorem getPNodesInfo_deterministic_witness :
    getPNodesInfo 1 2 3 4 (fun _ => ⟨true, 200, "OK", .obj [("result", .obj [])]⟩)
      = getPNodesInfo 5 6 7 8
          (fun _ => ⟨true, 200, "OK", .obj [("result", .obj [])]⟩) :=
  getPNodesInfo_deterministic.1 1 2 3 4 5 6 7 8
    (fun _ => ⟨true, 200, "OK", .obj [("result", .obj [])]⟩)
    (fun _ => ⟨true, 200, "OK", .obj [("result", .obj [])]⟩) rfl rfl rfl rfl

end PNodes

